import Mathlib

/-!
Shallow embedding of `src/t_utils.py` (Walker-constellation TLE generator).

Conventions of the embedding:
* Python machine integers are `Nat`, Python floats are `ℚ` (ideal arithmetic);
  the single genuinely irrational float computation in the source, the mean
  motion `n = sqrt(mu / a**3) * 86400 / (2*pi)` at line 59, cannot be embedded
  exactly as a rational, so the value the program computed for it is threaded
  through the environment (`Env.mean_motion`), and the defining formula is
  modelled separately over `ℝ` (`mean_motion_rel`).
* The ambient random draws of the source (`datetime.now()` epoch at lines
  63-69, `random.randint(10000, 90000)` at line 81, the per-satellite
  `generate_random_launch_info()` draws at line 99) become explicit fields of
  an `Env` record; `Env.wf` records exactly the ranges those draws come from.
* Python strings are `List Char` while being assembled and `String` in the
  returned records.
* The only exception kind the source can raise on the generation path is an
  uncaught `ZeroDivisionError`: from `mu / a**3` at line 59 when
  `a = Re + altitude` is exactly `0.0` (altitude = −6378.137), from
  `360/num_planes` (line 73) when `num_planes = 0`, or from
  `(walker_F*360)/total_sats` (line 74) when `total_sats = 0`. It is
  modelled by `Except` with the single error `GenError.zeroDivision`.
  (For `a < 0`, `np.sqrt` of the negative quotient yields NaN with only a
  RuntimeWarning and the run completes.)
-/

namespace TUtils

/-- Python `x % y` on floats for `y > 0`: `x - y * floor (x / y)`. -/
def pymod (x y : ℚ) : ℚ := x - y * ⌊x / y⌋

/-- Round-half-to-even of a rational, as Python float formatting rounds. -/
def pyRound (q : ℚ) : ℤ :=
  if q - ⌊q⌋ > 1/2 then ⌊q⌋ + 1
  else if q - ⌊q⌋ < 1/2 then ⌊q⌋
  else if ⌊q⌋ % 2 = 0 then ⌊q⌋ else ⌊q⌋ + 1

/-- Decimal digit characters of a natural number, most significant first;
`fuel` only bounds the recursion depth. -/
def natChars : Nat → Nat → List Char
  | 0, _ => []
  | fuel+1, n =>
    if n < 10 then [Nat.digitChar n]
    else natChars fuel (n / 10) ++ [Nat.digitChar (n % 10)]

/-- Decimal digit characters of `n`, as Python `str(n)` for `n ≥ 0`. -/
def natDigits (n : Nat) : List Char := natChars (n + 1) n

/-- Left-pad `s` with `c` to width `w` (no truncation), as Python
`str.rjust` / the `0` and space padding of `%` formatting. -/
def padLeft (c : Char) (w : Nat) (s : List Char) : List Char :=
  List.replicate (w - s.length) c ++ s

/-- Right-pad `s` with spaces to width `w` (no truncation), as Python
`f"{s:<Ns}"`. -/
def padRight (w : Nat) (s : List Char) : List Char :=
  s ++ List.replicate (w - s.length) ' '

/-- Python `f"{n:0Wd}"` for a nonnegative integer. -/
def fmtNat0 (w n : Nat) : List Char := padLeft '0' w (natDigits n)

/-- Digits (with sign and decimal point) of `q` rounded half-to-even to `p`
decimal places, as Python `%.Pf` produces before width padding. -/
def decimalChars (p : Nat) (q : ℚ) : List Char :=
  (if q < 0 then ['-'] else []) ++
    natDigits ((pyRound (|q| * 10 ^ p)).toNat / 10 ^ p) ++ ['.'] ++
    padLeft '0' p (natDigits ((pyRound (|q| * 10 ^ p)).toNat % 10 ^ p))

/-- Python `f"{q:W.Pf}"` (space padded on the left). -/
def fmtF (w p : Nat) (q : ℚ) : List Char := padLeft ' ' w (decimalChars p q)

/-- Python `f"{q:0W.Pf}"` (zero padded on the left, used for the epoch day). -/
def fmtF0 (w p : Nat) (q : ℚ) : List Char := padLeft '0' w (decimalChars p q)

/-- Function `calculate_checksum` (src/t_utils.py lines 8-16): over the first 68
characters, digits add their value, `-` adds 1, everything else adds 0;
result is the sum mod 10. -/
def calculate_checksum (line : List Char) : Nat :=
  ((line.take 68).foldl
    (fun s char =>
      if char.isDigit then s + (char.toNat - '0'.toNat)
      else if char = '-' then s + 1 else s) 0) % 10

/-- One random launch-metadata draw (`generate_random_launch_info`,
src/t_utils.py lines 18-34): `(launch_year % 100, launch_number,
launch_piece)`. -/
structure LaunchInfo where
  year : Nat
  number : Nat
  piece : List Char
deriving DecidableEq

/-- The ambient inputs of one run of `generate_constellation_tle`: the epoch
sampled once from `datetime.now()` (lines 63-69), the NORAD base drawn once
(line 81), the per-satellite launch draws (line 99, indexed by `sat_counter`),
and the IEEE-double value the program computed at line 59 for the mean
motion. -/
structure Env where
  epoch_year : Nat
  epoch_day : ℚ
  base_norad_id : Nat
  launch_info : Nat → LaunchInfo
  mean_motion : ℚ

/-- The ranges the source draws its ambient inputs from: `epoch_year` is a
two-digit year, `epoch_day` is day-of-year (1-366) plus a fraction of a day,
the NORAD base comes from `randint(10000, 90000)`, launch years are two-digit,
launch numbers from `randint(1, 999)`, and launch pieces are one or two
letters. -/
def Env.wf (env : Env) : Prop :=
  env.epoch_year < 100 ∧ 1 ≤ env.epoch_day ∧ env.epoch_day < 367 ∧
  10000 ≤ env.base_norad_id ∧ env.base_norad_id ≤ 90000 ∧
  ∀ i, (env.launch_info i).year < 100 ∧ 1 ≤ (env.launch_info i).number ∧
    (env.launch_info i).number ≤ 999 ∧ 1 ≤ (env.launch_info i).piece.length ∧
    (env.launch_info i).piece.length ≤ 2

/-- Python `f"{epoch_year:02d}{epoch_day:012.8f}"` (line 108). -/
def epoch_str (env : Env) : List Char :=
  fmtNat0 2 env.epoch_year ++ fmtF0 12 8 env.epoch_day

/-- Eccentricity `e = 0.0` (line 60, circular orbit). -/
def ecc : ℚ := 0

/-- Argument of perigee `omega = 0` (line 61). -/
def omega0 : ℚ := 0

/-- Per-plane `raan = (plane * delta_raan) % 360` with `delta_raan = 360 / num_planes`
(lines 73 and 87). -/
def raan_of (num_planes plane : Nat) : ℚ :=
  pymod ((plane : ℚ) * (360 / (num_planes : ℚ))) 360

/-- Walker `phase_unit = (walker_F * 360) / total_sats` (line 74). -/
def phase_unit_of (num_planes sats_per_plane walker_F : Nat) : ℚ :=
  ((walker_F : ℚ) * 360) / ((num_planes * sats_per_plane : Nat) : ℚ)

/-- Per-plane `walker_phase_offset = (plane * phase_unit) % 360` (line 90). -/
def walker_phase_offset_of (num_planes sats_per_plane walker_F plane : Nat) : ℚ :=
  pymod ((plane : ℚ) * phase_unit_of num_planes sats_per_plane walker_F) 360

/-- Per-slot `M = (sat * in_plane_spacing + walker_phase_offset) % 360` with
`in_plane_spacing = 360 / sats_per_plane` (lines 94-95). -/
def mean_anomaly_of (num_planes sats_per_plane walker_F plane sat : Nat) : ℚ :=
  pymod ((sat : ℚ) * (360 / (sats_per_plane : ℚ)) +
    walker_phase_offset_of num_planes sats_per_plane walker_F plane) 360

/-- Sanitisation `clean_name` (line 102): keep alphanumerics, `_` and `-`, uppercase. -/
def clean_name (constellation_name : String) : List Char :=
  (constellation_name.toList.filter
    (fun c => c.isAlphanum || c = '_' || c = '-')).map Char.toUpper

/-- Satellite name `sat_name = f"{clean_name}{plane+1:03d}-{sat+1:02d}"` (line 105). -/
def sat_name (constellation_name : String) (plane sat : Nat) : List Char :=
  clean_name constellation_name ++ fmtNat0 3 (plane + 1) ++ ['-'] ++
    fmtNat0 2 (sat + 1)

/-- Sequential `sat_number = base_norad_id + sat_counter` (line 98); the counter equals
`plane * sats_per_plane + sat` at the body for `(plane, sat)`. -/
def sat_number_of (env : Env) (sats_per_plane plane sat : Nat) : Nat :=
  env.base_norad_id + (plane * sats_per_plane + sat)

/-- Python `int(q)`, truncation toward zero. -/
def pyInt (q : ℚ) : ℤ := if 0 ≤ q then ⌊q⌋ else -⌊-q⌋

/-- The `line1_body` string before the 68-column fixup (lines 111-113). -/
def line1_body (env : Env) (sat_number : Nat) (li : LaunchInfo) : List Char :=
  "1 ".toList ++ fmtNat0 5 sat_number ++ "U ".toList ++
    fmtNat0 2 li.year ++ fmtNat0 3 li.number ++ padRight 3 li.piece ++
    [' '] ++ epoch_str env ++ [' '] ++
    " .00000000  00000+0  00000-0 0  9999".toList

/-- The `line2_body` string before the 68-column fixup (lines 121-123). -/
def line2_body (inclination raan M n : ℚ) (sat_number : Nat) : List Char :=
  "2 ".toList ++ fmtNat0 5 sat_number ++ [' '] ++ fmtF 8 4 inclination ++
    [' '] ++ fmtF 8 4 raan ++ [' '] ++
    fmtNat0 7 (pyInt (ecc * 10 ^ 7)).toNat ++ [' '] ++ fmtF 8 4 omega0 ++
    [' '] ++ fmtF 8 4 M ++ [' '] ++ fmtF 11 8 n ++ "    1".toList

/-- Python `body[:68].ljust(68)` (lines 116 and 126). -/
def fix68 (l : List Char) : List Char :=
  l.take 68 ++ List.replicate (68 - (l.take 68).length) ' '

/-- Appending the checksum digit, `line = body + str(checksum)` (lines 117-118 and 127-128). -/
def addChecksum (body : List Char) : List Char :=
  body ++ [Nat.digitChar (calculate_checksum body)]

/-- One row of the `sat_data` table (lines 134-141); `plane` and `sat` are
stored 1-based as in the source. -/
structure SatData where
  plane : Nat
  sat : Nat
  norad_id : Nat
  raan : ℚ
  mean_anomaly : ℚ
  name : String
deriving DecidableEq

/-- The loop body for indices `(plane, sat)` (lines 85-143): the
`(sat_name, line1, line2)` triple appended to `tle_lines` and the `sat_data`
row. -/
def satTriple (env : Env) (inclination : ℚ)
    (num_planes sats_per_plane walker_F : Nat) (cname : String)
    (plane sat : Nat) : (String × String × String) × SatData :=
  ((String.mk (sat_name cname plane sat),
    String.mk (addChecksum (fix68 (line1_body env
      (sat_number_of env sats_per_plane plane sat)
      (env.launch_info (plane * sats_per_plane + sat))))),
    String.mk (addChecksum (fix68 (line2_body inclination
      (raan_of num_planes plane)
      (mean_anomaly_of num_planes sats_per_plane walker_F plane sat)
      env.mean_motion
      (sat_number_of env sats_per_plane plane sat))))),
   { plane := plane + 1
     sat := sat + 1
     norad_id := sat_number_of env sats_per_plane plane sat
     raan := raan_of num_planes plane
     mean_anomaly := mean_anomaly_of num_planes sats_per_plane walker_F plane sat
     name := String.mk (sat_name cname plane sat) })

/-- The `(plane, sat)` index pairs in the order the two nested loops of
lines 85-92 visit them: plane-major, slot-minor. -/
def planeSlotPairs (num_planes sats_per_plane : Nat) : List (Nat × Nat) :=
  (List.range num_planes).flatMap
    (fun plane => (List.range sats_per_plane).map (fun sat => (plane, sat)))

/-- All loop iterations of one run, in loop order. -/
def records (env : Env) (inclination : ℚ)
    (num_planes sats_per_plane walker_F : Nat) (cname : String) :
    List ((String × String × String) × SatData) :=
  (planeSlotPairs num_planes sats_per_plane).map
    (fun ps => satTriple env inclination num_planes sats_per_plane walker_F
      cname ps.1 ps.2)

/-- The `tle_lines` list (line 131): the flat list
`[name, line1, line2, name, line1, line2, ...]`. -/
def tle_lines (env : Env) (inclination : ℚ)
    (num_planes sats_per_plane walker_F : Nat) (cname : String) : List String :=
  (records env inclination num_planes sats_per_plane walker_F cname).flatMap
    (fun r => [r.1.1, r.1.2.1, r.1.2.2])

/-- The `constellation_data` summary dictionary (lines 146-161). -/
structure Summary where
  total_satellites : Nat
  num_planes : Nat
  sats_per_plane : Nat
  walker_F : Nat
  altitude : ℚ
  inclination : ℚ
  mean_motion : ℚ
  orbital_period : ℚ
  raan_spacing : ℚ
  phase_unit : ℚ
  epoch_year : Nat
  epoch_day : ℚ
  satellite_data : List SatData
  base_norad_id : Nat

/-- The summary of one run (lines 146-161). -/
def constellation_data (env : Env) (altitude inclination : ℚ)
    (num_planes sats_per_plane walker_F : Nat) (cname : String) : Summary :=
  { total_satellites := num_planes * sats_per_plane
    num_planes := num_planes
    sats_per_plane := sats_per_plane
    walker_F := walker_F
    altitude := altitude
    inclination := inclination
    mean_motion := env.mean_motion
    orbital_period := 1440 / env.mean_motion
    raan_spacing := 360 / (num_planes : ℚ)
    phase_unit := phase_unit_of num_planes sats_per_plane walker_F
    epoch_year := env.epoch_year
    epoch_day := env.epoch_day
    satellite_data :=
      (records env inclination num_planes sats_per_plane walker_F cname).map
        (fun r => r.2)
    base_norad_id := env.base_norad_id }

/-- The one exception kind the generation path of the source can raise, an
uncaught `ZeroDivisionError`: at line 59 (`mu / a**3` with
`a = Re + altitude = 0.0`, i.e. altitude exactly −6378.137), at line 73
(`360 / num_planes` with `num_planes = 0`), or at line 74
(`(walker_F * 360) / total_sats` with `total_sats = 0`). Each aborts the
run before any output is produced. -/
inductive GenError where
  | zeroDivision
deriving DecidableEq

/-- Earth radius `Re = 6378.137` km (line 54). -/
def Re : ℚ := 6378.137

/-- Earth gravitational parameter `mu = 398600.4418` km³/s² (line 55). -/
def mu : ℚ := 398600.4418

/-- Function `generate_constellation_tle` (src/t_utils.py lines 36-163) as a
function of its Python arguments and the ambient draws `env`. The run aborts
with an uncaught `ZeroDivisionError` when the semi-major axis
`a = Re + altitude` is exactly zero (the float division `mu / a**3` of
line 59) or when `num_planes = 0` or `sats_per_plane = 0` (the spacing
divisions of lines 73-74); otherwise it completes (for a negative `a**3`,
`np.sqrt` yields NaN with only a warning and the run carries on). -/
def generate_constellation_tle (env : Env) (altitude inclination : ℚ)
    (num_planes sats_per_plane walker_F : Nat) (cname : String) :
    Except GenError (List String × Summary) :=
  if Re + altitude = 0 ∨ num_planes = 0 ∨ sats_per_plane = 0 then
    .error .zeroDivision
  else .ok (tle_lines env inclination num_planes sats_per_plane walker_F cname,
    constellation_data env altitude inclination num_planes sats_per_plane
      walker_F cname)

/-- The checksum rule as the specification words it: over the first 68
characters of the line, a decimal digit contributes its value, `-`
contributes 1, every other character contributes 0; the checksum is the sum
mod 10. -/
def checksum_claim (l : List Char) : Nat :=
  ((l.take 68).map
    (fun c => if c.isDigit then c.toNat - '0'.toNat
      else if c = '-' then 1 else 0)).sum % 10

/-- The defining equation of the mean motion computed at lines 58-59,
`n = sqrt(mu / (Re + altitude)^3) * 86400 / (2*pi)` rev/day, stated over `ℝ`
in square form: `n ≥ 0` and `n² (Re+alt)³ (2π)² = mu · 86400²`. -/
def mean_motion_rel (altitude : ℚ) (n : ℝ) : Prop :=
  0 ≤ n ∧
    n ^ 2 * ((Re : ℝ) + (altitude : ℝ)) ^ 3 * (2 * Real.pi) ^ 2 =
      (mu : ℝ) * 86400 ^ 2

/-- A concrete environment (epoch 25/280.5, NORAD base 40000, constant launch
draw, mean motion 15.05896883) used to instantiate theorems. -/
def env₀ : Env :=
  { epoch_year := 25
    epoch_day := 561 / 2
    base_norad_id := 40000
    launch_info := fun _ => { year := 24, number := 123, piece := ['B'] }
    mean_motion := 15.05896883 }

/-- Like `env₀` but with different launch-metadata draws. -/
def env₁ : Env :=
  { epoch_year := 25
    epoch_day := 561 / 2
    base_norad_id := 40000
    launch_info := fun _ => { year := 23, number := 7, piece := ['C', 'D'] }
    mean_motion := 15.05896883 }

/-- Like `env₀` but with a mean motion of 100 rev/day, the float the program
computes at line 59 for an altitude of about −4418 km; its `%11.8f` rendering
is 12 characters wide, overflowing the 11-column mean-motion field. -/
def env100 : Env :=
  { epoch_year := 25
    epoch_day := 561 / 2
    base_norad_id := 40000
    launch_info := fun _ => { year := 24, number := 123, piece := ['B'] }
    mean_motion := 100 }

/-! Infrastructure lemmas. -/

theorem planeSlotPairs_eq (m s : Nat) :
    planeSlotPairs m s = (List.range (m * s)).map (fun k => (k / s, k % s)) := by
  rcases Nat.eq_zero_or_pos s with hs | hs
  · subst hs
    simp [planeSlotPairs]
  induction m with
  | zero => simp [planeSlotPairs]
  | succ m ih =>
    have step : planeSlotPairs (m + 1) s =
        planeSlotPairs m s ++ (List.range s).map (fun j => (m, j)) := by
      rw [planeSlotPairs, planeSlotPairs, List.range_succ, List.flatMap_append]
      simp
    rw [step, ih, Nat.succ_mul, List.range_add, List.map_append, List.map_map]
    congr 1
    refine List.map_congr_left (fun j hj => ?_)
    rw [List.mem_range] at hj
    have h1 : (m * s + j) / s = m := by
      rw [Nat.add_comm (m * s) j, Nat.mul_comm m s, Nat.add_mul_div_left _ _ hs,
        Nat.div_eq_of_lt hj, Nat.zero_add]
    have h2 : (m * s + j) % s = j := by
      rw [Nat.add_comm (m * s) j, Nat.mul_comm m s,
        Nat.add_mul_mod_self_left, Nat.mod_eq_of_lt hj]
    simp [Function.comp, h1, h2]

theorem records_length (env : Env) (inclination : ℚ)
    (num_planes sats_per_plane walker_F : Nat) (cname : String) :
    (records env inclination num_planes sats_per_plane walker_F cname).length =
      num_planes * sats_per_plane := by
  simp [records, planeSlotPairs_eq]

theorem records_getElem? (env : Env) (inclination : ℚ)
    (num_planes sats_per_plane walker_F : Nat) (cname : String) {k : Nat}
    (hk : k < num_planes * sats_per_plane) :
    (records env inclination num_planes sats_per_plane walker_F cname)[k]? =
      some (satTriple env inclination num_planes sats_per_plane walker_F cname
        (k / sats_per_plane) (k % sats_per_plane)) := by
  simp [records, planeSlotPairs_eq, List.getElem?_map, List.getElem?_range hk]

theorem tle_lines_length (env : Env) (inclination : ℚ)
    (num_planes sats_per_plane walker_F : Nat) (cname : String) :
    (tle_lines env inclination num_planes sats_per_plane walker_F cname).length =
      3 * (num_planes * sats_per_plane) := by
  rw [tle_lines, List.length_flatMap]
  have h : (List.map
      (List.length ∘ fun (r : (String × String × String) × SatData) =>
        [r.1.1, r.1.2.1, r.1.2.2])
      (records env inclination num_planes sats_per_plane walker_F cname)) =
      List.replicate (records env inclination num_planes sats_per_plane
        walker_F cname).length 3 := by
    rw [← List.map_const]
    rfl
  rw [h, List.sum_replicate, smul_eq_mul, records_length, Nat.mul_comm]

/-! Digit-string lengths. -/

theorem natChars_length_le {k : Nat} :
    ∀ (fuel n : Nat), 0 < k → n < 10 ^ k → (natChars (fuel + 1) n).length ≤ k := by
  induction k with
  | zero => intro fuel n h; omega
  | succ k ih =>
    intro fuel n _ hn
    rw [natChars]
    by_cases h10 : n < 10
    · simp [h10]
    · simp only [h10, if_false]
      have hk : 0 < k := by
        by_contra h
        have : k = 0 := by omega
        subst this
        simp at hn
        omega
      have hdiv : n / 10 < 10 ^ k := by
        rw [Nat.div_lt_iff_lt_mul (by norm_num)]
        calc n < 10 ^ (k + 1) := hn
        _ = 10 ^ k * 10 := by ring
      match fuel with
      | 0 => simp [natChars]
      | fuel + 1 =>
        have := ih fuel (n / 10) hk hdiv
        simp only [List.length_append, List.length_cons, List.length_nil]
        omega

theorem natDigits_length_le {k n : Nat} (hk : 0 < k) (hn : n < 10 ^ k) :
    (natDigits n).length ≤ k :=
  natChars_length_le n n hk hn

theorem natDigits_length_pos (n : Nat) : 0 < (natDigits n).length := by
  rw [natDigits, natChars]
  split <;> simp

theorem padLeft_length {c : Char} {w : Nat} {s : List Char}
    (h : s.length ≤ w) : (padLeft c w s).length = w := by
  simp [padLeft]
  omega

theorem padRight_length {w : Nat} {s : List Char}
    (h : s.length ≤ w) : (padRight w s).length = w := by
  simp [padRight]
  omega

theorem fmtNat0_length {w n : Nat} (hw : 0 < w) (hn : n < 10 ^ w) :
    (fmtNat0 w n).length = w :=
  padLeft_length (natDigits_length_le hw hn)

theorem pyRound_le_floor_add_one (q : ℚ) : pyRound q ≤ ⌊q⌋ + 1 := by
  rw [pyRound]
  split
  · exact le_refl _
  · split
    · omega
    · split <;> omega

theorem floor_le_pyRound (q : ℚ) : ⌊q⌋ ≤ pyRound q := by
  rw [pyRound]
  split
  · omega
  · split
    · omega
    · split <;> omega

theorem pyRound_nonneg {q : ℚ} (h : 0 ≤ q) : 0 ≤ pyRound q := by
  have := floor_le_pyRound q
  have : (0 : ℤ) ≤ ⌊q⌋ := Int.floor_nonneg.2 h
  omega

/-- For `0 ≤ q < 10^d - 1`, the rounded decimal expansion of `q` with `p`
decimal places has at most `d` integer digits, hence at most `d + 1 + p`
characters. -/
theorem decimalChars_length_le {d p : Nat} {q : ℚ} (hd : 0 < d) (hp : 0 < p)
    (hq : 0 ≤ q) (hlt : q < 10 ^ d - 1) :
    (decimalChars p q).length ≤ d + 1 + p := by
  rw [decimalChars, abs_of_nonneg hq]
  have hq2 : ¬ (q < 0) := not_lt.2 hq
  have hmn : (pyRound (q * 10 ^ p)).toNat < 10 ^ (d + p) := by
    have h1 : pyRound (q * 10 ^ p) ≤ ⌊q * 10 ^ p⌋ + 1 :=
      pyRound_le_floor_add_one _
    have h2 : ⌊q * 10 ^ p⌋ < ((10 ^ d - 1) * 10 ^ p : ℤ) := by
      rw [Int.floor_lt]
      push_cast
      have hpow : (0 : ℚ) < 10 ^ p := by positivity
      exact mul_lt_mul_of_pos_right hlt hpow
    have hone : (1 : ℤ) ≤ 10 ^ p := one_le_pow₀ (by norm_num)
    have hsplit : (10 : ℤ) ^ (d + p) = 10 ^ d * 10 ^ p := pow_add 10 d p
    have h2' : ⌊q * 10 ^ p⌋ < (10 : ℤ) ^ (d + p) - 10 ^ p := by
      calc ⌊q * 10 ^ p⌋ < ((10 ^ d - 1) * 10 ^ p : ℤ) := h2
      _ = (10 : ℤ) ^ (d + p) - 10 ^ p := by rw [hsplit]; ring
    have hcast : ((10 : ℤ) ^ (d + p)).toNat = 10 ^ (d + p) := by
      rw [show (10 : ℤ) = ((10 : ℕ) : ℤ) by norm_num, ← Nat.cast_pow,
        Int.toNat_natCast]
    have hpos : (0 : ℤ) < 10 ^ (d + p) := by positivity
    omega
  have hdivlen : (natDigits ((pyRound (q * 10 ^ p)).toNat / 10 ^ p)).length ≤ d := by
    refine natDigits_length_le hd ?_
    rw [Nat.div_lt_iff_lt_mul (by positivity)]
    calc (pyRound (q * 10 ^ p)).toNat < 10 ^ (d + p) := hmn
    _ = 10 ^ d * 10 ^ p := by rw [pow_add]
  have hmodlen :
      (padLeft '0' p (natDigits ((pyRound (q * 10 ^ p)).toNat % 10 ^ p))).length
        = p := by
    refine padLeft_length (natDigits_length_le hp ?_)
    exact Nat.mod_lt _ (by positivity)
  simp only [hq2, if_false, List.nil_append, List.length_append,
    List.length_cons, List.length_nil, hmodlen]
  omega

theorem fmtF_length (d : Nat) {w p : Nat} {q : ℚ} (hd : 0 < d) (hp : 0 < p)
    (hw : d + 1 + p ≤ w) (hq : 0 ≤ q) (hlt : q < 10 ^ d - 1) :
    (fmtF w p q).length = w :=
  padLeft_length (le_trans (decimalChars_length_le hd hp hq hlt) hw)

theorem fmtF0_length (d : Nat) {w p : Nat} {q : ℚ} (hd : 0 < d) (hp : 0 < p)
    (hw : d + 1 + p ≤ w) (hq : 0 ≤ q) (hlt : q < 10 ^ d - 1) :
    (fmtF0 w p q).length = w :=
  padLeft_length (le_trans (decimalChars_length_le hd hp hq hlt) hw)

/-! Line shape and checksum. -/

theorem fix68_length (l : List Char) : (fix68 l).length = 68 := by
  rw [fix68]
  have h : (l.take 68).length ≤ 68 := List.length_take_le 68 l
  simp only [List.length_append, List.length_replicate]
  omega

theorem addChecksum_length (b : List Char) :
    (addChecksum b).length = b.length + 1 := by
  simp [addChecksum]

theorem addChecksum_getLast? (b : List Char) :
    (addChecksum b).getLast? = some (Nat.digitChar (calculate_checksum b)) :=
  List.getLast?_concat _

theorem addChecksum_take68 {b : List Char} (hb : b.length = 68) :
    (addChecksum b).take 68 = b :=
  List.take_left' hb

theorem calculate_checksum_eq_claim (l : List Char) :
    calculate_checksum l = checksum_claim l := by
  rw [calculate_checksum, checksum_claim]
  congr 1
  generalize l.take 68 = t
  have hstep : ∀ (s : Nat) (c : Char),
      (if c.isDigit then s + (c.toNat - '0'.toNat)
        else if c = '-' then s + 1 else s) =
      s + (if c.isDigit then c.toNat - '0'.toNat
        else if c = '-' then 1 else 0) := by
    intro s c
    by_cases h1 : c.isDigit <;> by_cases h2 : c = '-' <;> simp [h1, h2]
  suffices h : ∀ (t : List Char) (s : Nat),
      t.foldl (fun s char => if char.isDigit then s + (char.toNat - '0'.toNat)
        else if char = '-' then s + 1 else s) s =
      s + (t.map (fun c => if c.isDigit then c.toNat - '0'.toNat
        else if c = '-' then 1 else 0)).sum by
    simpa using h t 0
  intro t
  induction t with
  | nil => simp
  | cons c t ih =>
    intro s
    rw [List.foldl_cons, ih, hstep, List.map_cons, List.sum_cons]
    ring

/-! Python float modulo. -/

theorem pymod_eq_fract {x y : ℚ} (hy : y ≠ 0) :
    pymod x y = y * Int.fract (x / y) := by
  rw [pymod, Int.fract]
  field_simp

theorem pymod_nonneg {x y : ℚ} (hy : 0 < y) : 0 ≤ pymod x y := by
  rw [pymod_eq_fract (ne_of_gt hy)]
  exact mul_nonneg (le_of_lt hy) (Int.fract_nonneg _)

theorem pymod_lt {x y : ℚ} (hy : 0 < y) : pymod x y < y := by
  rw [pymod_eq_fract (ne_of_gt hy)]
  calc y * Int.fract (x / y) < y * 1 :=
        mul_lt_mul_of_pos_left (Int.fract_lt_one _) hy
  _ = y := mul_one y

theorem pymod_eq_self {x y : ℚ} (hx : 0 ≤ x) (hxy : x < y) :
    pymod x y = x := by
  have hy : 0 < y := lt_of_le_of_lt hx hxy
  have h0 : ⌊x / y⌋ = 0 := by
    rw [Int.floor_eq_zero_iff]
    constructor
    · exact div_nonneg hx (le_of_lt hy)
    · rw [div_lt_one hy]
      exact hxy
  rw [pymod, h0]
  simp

theorem pymod_zero_left {y : ℚ} : pymod 0 y = 0 := by
  simp [pymod]

/-! Extracting a fixed-width field from an assembled line: if the columns
`[i, i+w)` lie inside the first 68 characters and the body splits as
`A ++ (B ++ C)` with `A` of width `i` and `B` of width `w`, then those
columns of the finished line are exactly `B`. -/

theorem toList_mk (l : List Char) : (String.mk l).toList = l := rfl

theorem slice_line {A B C : List Char} {i w : Nat} (hA : A.length = i)
    (hB : B.length = w) (hiw : i + w ≤ 68) :
    ((addChecksum (fix68 (A ++ (B ++ C)))).drop i).take w = B := by
  have hlen : i + w ≤ (A ++ (B ++ C)).length := by
    simp only [List.length_append, hA, hB]
    omega
  have hXge : i + w ≤ ((A ++ (B ++ C)).take 68).length := by
    rw [List.length_take]
    exact le_min hiw hlen
  unfold addChecksum fix68
  rw [List.append_assoc, List.drop_append_eq_append_drop,
    List.take_append_eq_append_take]
  have hd : w - ((((A ++ (B ++ C)).take 68)).drop i).length = 0 := by
    rw [List.length_drop]
    omega
  rw [hd, List.take_zero, List.append_nil, List.drop_take, List.take_take,
    min_eq_left (by omega : w ≤ 68 - i), List.drop_left' hA, List.take_left' hB]

/-- Every assembled line is exactly 69 characters. -/
theorem line69 (b : List Char) : (addChecksum (fix68 b)).length = 69 := by
  rw [addChecksum_length, fix68_length]

/-- The last character of every assembled line is the checksum digit of its
first 68 characters, with the checksum as the specification words it. -/
theorem line_checksum (b : List Char) :
    (addChecksum (fix68 b)).getLast? =
      some (Nat.digitChar (checksum_claim ((addChecksum (fix68 b)).take 68))) := by
  rw [addChecksum_take68 (fix68_length b), addChecksum_getLast?,
    calculate_checksum_eq_claim]

theorem env₀_wf : env₀.wf := by
  refine ⟨by norm_num [env₀], by norm_num [env₀], by norm_num [env₀],
    by norm_num [env₀], by norm_num [env₀], fun i => ?_⟩
  refine ⟨by norm_num [env₀], by norm_num [env₀], by norm_num [env₀],
    by simp [env₀], by simp [env₀]⟩

/-! The frozen claims. -/

/-- Claim C1: for every generated satellite record, line1 and line2 are each
exactly 69 characters long, and the 69th character of each equals the checksum
of the first 68 characters, where the checksum sums the digit value of each
decimal digit, 1 for each `-`, 0 for every other character, mod 10. -/
theorem C1_line_lengths_and_checksums (env : Env) (inclination : ℚ)
    (num_planes sats_per_plane walker_F : Nat) (cname : String) :
    ∀ r ∈ records env inclination num_planes sats_per_plane walker_F cname,
      r.1.2.1.toList.length = 69 ∧
      r.1.2.1.toList.getLast? =
        some (Nat.digitChar (checksum_claim (r.1.2.1.toList.take 68))) ∧
      r.1.2.2.toList.length = 69 ∧
      r.1.2.2.toList.getLast? =
        some (Nat.digitChar (checksum_claim (r.1.2.2.toList.take 68))) := by
  intro r hr
  simp only [records, List.mem_map] at hr
  obtain ⟨ps, hps, rfl⟩ := hr
  exact ⟨line69 _, line_checksum _, line69 _, line_checksum _⟩

theorem C1_line_lengths_and_checksums_witness :
    (records env₀ 53 1 1 0 "TEST").length = 1 ∧
    (records env₀ 53 1 1 0 "TEST").Forall (fun r =>
      r.1.2.1.toList.length = 69 ∧
      r.1.2.1.toList.getLast? =
        some (Nat.digitChar (checksum_claim (r.1.2.1.toList.take 68))) ∧
      r.1.2.2.toList.length = 69 ∧
      r.1.2.2.toList.getLast? =
        some (Nat.digitChar (checksum_claim (r.1.2.2.toList.take 68)))) := by
  constructor
  · rw [records_length]
  · exact List.forall_iff_forall_mem.2
      (C1_line_lengths_and_checksums env₀ 53 1 1 0 "TEST")

/-- Claim C2 counterexample: num_planes = 1 ≥ 1 and sats_per_plane = 1 ≥ 1,
yet at altitude −6378.137 exactly — a zero semi-major axis — the run aborts
with the uncaught ZeroDivisionError of line 59 (`mu / 0.0**3`) and returns
no triples at all, refuting "for every input with num_planes ≥ 1 and
sats_per_plane ≥ 1 the function returns exactly num_planes × sats_per_plane
triples". -/
theorem C2_counterexample :
    (1 ≤ 1 ∧ 1 ≤ 1) ∧
    generate_constellation_tle env₀ (-6378.137) 53 1 1 0 "X" =
      .error .zeroDivision := by
  refine ⟨⟨le_refl 1, le_refl 1⟩, ?_⟩
  unfold generate_constellation_tle
  rw [if_pos (Or.inl (by norm_num [Re]))]

/-- Claim C2 amended: for num_planes ≥ 1 and sats_per_plane ≥ 1, and an
altitude with nonzero semi-major axis (altitude ≠ −6378.137, where line 59
instead raises ZeroDivisionError), the run returns exactly
num_planes × sats_per_plane (name, line1, line2) triples — the flat
tle_lines list has length 3 × num_planes × sats_per_plane — enumerated
plane-major, slot-minor: the k-th satellite belongs to plane
k / sats_per_plane + 1, slot k % sats_per_plane + 1 (1-based), and its name
carries those indices. -/
theorem C2_count_and_order (env : Env) (altitude inclination : ℚ)
    (num_planes sats_per_plane walker_F : Nat) (cname : String)
    (ha : Re + altitude ≠ 0)
    (hp : 1 ≤ num_planes) (hs : 1 ≤ sats_per_plane) :
    ∃ lines summary,
      generate_constellation_tle env altitude inclination num_planes
        sats_per_plane walker_F cname = .ok (lines, summary) ∧
      lines.length = 3 * (num_planes * sats_per_plane) ∧
      summary.total_satellites = num_planes * sats_per_plane ∧
      summary.satellite_data.length = num_planes * sats_per_plane ∧
      ∀ k, k < num_planes * sats_per_plane →
        ∃ d, summary.satellite_data[k]? = some d ∧
          d.plane = k / sats_per_plane + 1 ∧
          d.sat = k % sats_per_plane + 1 ∧
          d.name = String.mk
            (sat_name cname (k / sats_per_plane) (k % sats_per_plane)) := by
  refine ⟨tle_lines env inclination num_planes sats_per_plane walker_F cname,
    constellation_data env altitude inclination num_planes sats_per_plane
      walker_F cname, ?_, tle_lines_length env inclination num_planes
      sats_per_plane walker_F cname, rfl, ?_, ?_⟩
  · unfold generate_constellation_tle
    rw [if_neg (by push_neg; exact ⟨ha, by omega, by omega⟩)]
  · show ((records env inclination num_planes sats_per_plane walker_F
      cname).map (fun r => r.2)).length = _
    rw [List.length_map, records_length]
  · intro k hk
    refine ⟨(satTriple env inclination num_planes sats_per_plane walker_F cname
      (k / sats_per_plane) (k % sats_per_plane)).2, ?_, rfl, rfl, rfl⟩
    show ((records env inclination num_planes sats_per_plane walker_F
      cname).map (fun r => r.2))[k]? = _
    rw [List.getElem?_map, records_getElem? env inclination num_planes
      sats_per_plane walker_F cname hk]
    rfl

theorem C2_count_and_order_witness :
    ∃ lines summary,
      generate_constellation_tle env₀ 550 53 2 2 1 "W" = .ok (lines, summary) ∧
      lines.length = 3 * (2 * 2) ∧
      summary.total_satellites = 2 * 2 ∧
      summary.satellite_data.length = 2 * 2 ∧
      ∀ k, k < 2 * 2 →
        ∃ d, summary.satellite_data[k]? = some d ∧
          d.plane = k / 2 + 1 ∧ d.sat = k % 2 + 1 ∧
          d.name = String.mk (sat_name "W" (k / 2) (k % 2)) :=
  C2_count_and_order env₀ 550 53 2 2 1 "W" (by norm_num [Re]) (by decide)
    (by decide)

/-- Claim C3: with the base drawn once per run from 10000–90000, the NORAD
ids in enumeration order form the contiguous ascending sequence base,
base+1, …, base+total−1, hence are pairwise distinct. -/
theorem C3_norad_ids_contiguous (env : Env) (altitude inclination : ℚ)
    (num_planes sats_per_plane walker_F : Nat) (cname : String)
    (hwf : env.wf) :
    10000 ≤ env.base_norad_id ∧ env.base_norad_id ≤ 90000 ∧
    (∀ k, k < num_planes * sats_per_plane →
      ∃ d, (constellation_data env altitude inclination num_planes
          sats_per_plane walker_F cname).satellite_data[k]? = some d ∧
        d.norad_id = env.base_norad_id + k) ∧
    (∀ k k2, k < num_planes * sats_per_plane →
      k2 < num_planes * sats_per_plane → k ≠ k2 →
      ∀ d d2, (constellation_data env altitude inclination num_planes
          sats_per_plane walker_F cname).satellite_data[k]? = some d →
        (constellation_data env altitude inclination num_planes
          sats_per_plane walker_F cname).satellite_data[k2]? = some d2 →
        d.norad_id ≠ d2.norad_id) := by
  obtain ⟨-, -, -, hb1, hb2, -⟩ := hwf
  have hform : ∀ k, k < num_planes * sats_per_plane →
      (constellation_data env altitude inclination num_planes sats_per_plane
        walker_F cname).satellite_data[k]? =
      some (satTriple env inclination num_planes sats_per_plane walker_F cname
        (k / sats_per_plane) (k % sats_per_plane)).2 := by
    intro k hk
    show ((records env inclination num_planes sats_per_plane walker_F
      cname).map (fun r => r.2))[k]? = _
    rw [List.getElem?_map, records_getElem? env inclination num_planes
      sats_per_plane walker_F cname hk]
    rfl
  have hid : ∀ k, (satTriple env inclination num_planes sats_per_plane
      walker_F cname (k / sats_per_plane) (k % sats_per_plane)).2.norad_id =
      env.base_norad_id + k := by
    intro k
    show env.base_norad_id + (k / sats_per_plane * sats_per_plane +
      k % sats_per_plane) = env.base_norad_id + k
    rw [Nat.mul_comm (k / sats_per_plane) sats_per_plane, Nat.div_add_mod]
  refine ⟨hb1, hb2, fun k hk => ⟨_, hform k hk, hid k⟩, ?_⟩
  intro k k2 hk hk2 hne d d2 hd hd2
  rw [hform k hk] at hd
  rw [hform k2 hk2] at hd2
  have h1 := hid k
  have h2 := hid k2
  rw [Option.some.injEq] at hd hd2
  rw [← hd, ← hd2]
  omega

theorem satellite_data_getElem? (env : Env) (altitude inclination : ℚ)
    (num_planes sats_per_plane walker_F : Nat) (cname : String) {k : Nat}
    (hk : k < num_planes * sats_per_plane) :
    (constellation_data env altitude inclination num_planes sats_per_plane
        walker_F cname).satellite_data[k]? =
      some (satTriple env inclination num_planes sats_per_plane walker_F cname
        (k / sats_per_plane) (k % sats_per_plane)).2 := by
  show ((records env inclination num_planes sats_per_plane walker_F
    cname).map (fun r => r.2))[k]? = _
  rw [List.getElem?_map, records_getElem? env inclination num_planes
    sats_per_plane walker_F cname hk]
  rfl

theorem raan_of_eq {num_planes p : Nat} (hp : 0 < num_planes)
    (hlt : p < num_planes) :
    raan_of num_planes p = (p : ℚ) * (360 / (num_planes : ℚ)) := by
  have hnp : (0 : ℚ) < (num_planes : ℚ) := by exact_mod_cast hp
  apply pymod_eq_self
  · positivity
  · calc (p : ℚ) * (360 / (num_planes : ℚ)) <
        (num_planes : ℚ) * (360 / (num_planes : ℚ)) := by
          apply mul_lt_mul_of_pos_right
          · exact_mod_cast hlt
          · positivity
    _ = 360 := by field_simp

theorem C3_norad_ids_contiguous_witness :
    10000 ≤ env₀.base_norad_id ∧ env₀.base_norad_id ≤ 90000 ∧
    (∀ k, k < 2 * 2 →
      ∃ d, (constellation_data env₀ 550 53 2 2 1 "W").satellite_data[k]? =
          some d ∧ d.norad_id = env₀.base_norad_id + k) ∧
    (∀ k k2, k < 2 * 2 → k2 < 2 * 2 → k ≠ k2 →
      ∀ d d2, (constellation_data env₀ 550 53 2 2 1 "W").satellite_data[k]? =
          some d →
        (constellation_data env₀ 550 53 2 2 1 "W").satellite_data[k2]? =
          some d2 →
        d.norad_id ≠ d2.norad_id) :=
  C3_norad_ids_contiguous env₀ 550 53 2 2 1 "W" env₀_wf

/-- Claim C4: the satellite in slot k of the run (plane p = k / sats_per_plane)
is assigned RAAN = (p × 360/num_planes) mod 360 = p × 360/num_planes; all
satellites of one plane share the same RAAN; the per-plane RAAN values are
pairwise distinct (so there are exactly num_planes of them, and every
satellite carries one of them), spaced 360/num_planes apart. -/
theorem C4_raan_per_plane (env : Env) (altitude inclination : ℚ)
    (num_planes sats_per_plane walker_F : Nat) (cname : String)
    (hp : 1 ≤ num_planes) (hs : 1 ≤ sats_per_plane) :
    (∀ k, k < num_planes * sats_per_plane →
      ∃ d, (constellation_data env altitude inclination num_planes
          sats_per_plane walker_F cname).satellite_data[k]? = some d ∧
        d.raan = pymod (((k / sats_per_plane : Nat) : ℚ) *
          (360 / (num_planes : ℚ))) 360 ∧
        d.raan = ((k / sats_per_plane : Nat) : ℚ) * (360 / (num_planes : ℚ)) ∧
        d.raan ∈ (List.range num_planes).map (raan_of num_planes)) ∧
    (∀ k k2, k < num_planes * sats_per_plane →
      k2 < num_planes * sats_per_plane →
      k / sats_per_plane = k2 / sats_per_plane →
      ∀ d d2, (constellation_data env altitude inclination num_planes
          sats_per_plane walker_F cname).satellite_data[k]? = some d →
        (constellation_data env altitude inclination num_planes sats_per_plane
          walker_F cname).satellite_data[k2]? = some d2 →
        d.raan = d2.raan) ∧
    ((List.range num_planes).map (raan_of num_planes)).Nodup ∧
    (∀ p, p + 1 < num_planes →
      raan_of num_planes (p + 1) - raan_of num_planes p =
        360 / (num_planes : ℚ)) := by
  have hdiv : ∀ k, k < num_planes * sats_per_plane →
      k / sats_per_plane < num_planes := by
    intro k hk
    rw [Nat.div_lt_iff_lt_mul (by omega)]
    omega
  refine ⟨?_, ?_, ?_, ?_⟩
  · intro k hk
    refine ⟨_, satellite_data_getElem? env altitude inclination num_planes
      sats_per_plane walker_F cname hk, rfl,
      raan_of_eq (by omega) (hdiv k hk), ?_⟩
    exact List.mem_map.2 ⟨k / sats_per_plane,
      List.mem_range.2 (hdiv k hk), rfl⟩
  · intro k k2 hk hk2 hdd d d2 hd hd2
    rw [satellite_data_getElem? env altitude inclination num_planes
      sats_per_plane walker_F cname hk, Option.some.injEq] at hd
    rw [satellite_data_getElem? env altitude inclination num_planes
      sats_per_plane walker_F cname hk2, Option.some.injEq] at hd2
    rw [← hd, ← hd2]
    show raan_of num_planes (k / sats_per_plane) =
      raan_of num_planes (k2 / sats_per_plane)
    rw [hdd]
  · have hcong : (List.range num_planes).map (raan_of num_planes) =
        (List.range num_planes).map
          (fun (p : ℕ) => (p : ℚ) * (360 / (num_planes : ℚ))) :=
      List.map_congr_left
        (fun p hp2 => raan_of_eq (by omega) (List.mem_range.1 hp2))
    rw [hcong]
    refine List.Nodup.map ?_ (List.nodup_range num_planes)
    intro a b hab
    have hc : (360 / (num_planes : ℚ)) ≠ 0 := by
      have hnp : ((num_planes : ℚ)) ≠ 0 := Nat.cast_ne_zero.2 (by omega)
      exact div_ne_zero (by norm_num) hnp
    exact Nat.cast_injective (mul_right_cancel₀ hc hab)
  · intro p hp1
    rw [raan_of_eq (by omega) hp1, raan_of_eq (by omega) (by omega)]
    push_cast
    ring

theorem C4_raan_per_plane_witness :
    (∀ k, k < 3 * 2 →
      ∃ d, (constellation_data env₀ 550 53 3 2 1 "W").satellite_data[k]? =
          some d ∧
        d.raan = pymod (((k / 2 : Nat) : ℚ) * (360 / (3 : ℚ))) 360 ∧
        d.raan = ((k / 2 : Nat) : ℚ) * (360 / (3 : ℚ)) ∧
        d.raan ∈ (List.range 3).map (raan_of 3)) ∧
    (∀ k k2, k < 3 * 2 → k2 < 3 * 2 → k / 2 = k2 / 2 →
      ∀ d d2, (constellation_data env₀ 550 53 3 2 1 "W").satellite_data[k]? =
          some d →
        (constellation_data env₀ 550 53 3 2 1 "W").satellite_data[k2]? =
          some d2 →
        d.raan = d2.raan) ∧
    ((List.range 3).map (raan_of 3)).Nodup ∧
    (∀ p, p + 1 < 3 →
      raan_of 3 (p + 1) - raan_of 3 p = 360 / (3 : ℚ)) := by
  have h := C4_raan_per_plane env₀ 550 53 3 2 1 "W" (by decide) (by decide)
  exact_mod_cast h

/-- Claim C5: the satellite in plane p, slot s has mean anomaly
(s × 360/sats_per_plane + (p × (walker_F × 360)/total) mod 360) mod 360; when
walker_F = 0 the phase offset is 0 for every plane and slots with equal index
have the same mean anomaly in every plane. -/
theorem C5_mean_anomaly_walker (env : Env) (altitude inclination : ℚ)
    (num_planes sats_per_plane walker_F : Nat) (cname : String)
    (hp : 1 ≤ num_planes) (hs : 1 ≤ sats_per_plane) :
    (∀ k, k < num_planes * sats_per_plane →
      ∃ d, (constellation_data env altitude inclination num_planes
          sats_per_plane walker_F cname).satellite_data[k]? = some d ∧
        d.mean_anomaly = pymod
          (((k % sats_per_plane : Nat) : ℚ) * (360 / (sats_per_plane : ℚ)) +
            pymod (((k / sats_per_plane : Nat) : ℚ) *
              (((walker_F : ℚ) * 360) /
                ((num_planes * sats_per_plane : Nat) : ℚ))) 360) 360) ∧
    (walker_F = 0 →
      (∀ plane, walker_phase_offset_of num_planes sats_per_plane 0 plane = 0) ∧
      (∀ k k2, k < num_planes * sats_per_plane →
        k2 < num_planes * sats_per_plane →
        k % sats_per_plane = k2 % sats_per_plane →
        ∀ d d2, (constellation_data env altitude inclination num_planes
            sats_per_plane walker_F cname).satellite_data[k]? = some d →
          (constellation_data env altitude inclination num_planes
            sats_per_plane walker_F cname).satellite_data[k2]? = some d2 →
          d.mean_anomaly = d2.mean_anomaly)) := by
  constructor
  · intro k hk
    exact ⟨_, satellite_data_getElem? env altitude inclination num_planes
      sats_per_plane walker_F cname hk, rfl⟩
  · intro hF
    subst hF
    have hwpo : ∀ plane,
        walker_phase_offset_of num_planes sats_per_plane 0 plane = 0 := by
      intro plane
      simp [walker_phase_offset_of, phase_unit_of, pymod_zero_left]
    refine ⟨hwpo, ?_⟩
    intro k k2 hk hk2 hmod d d2 hd hd2
    rw [satellite_data_getElem? env altitude inclination num_planes
      sats_per_plane 0 cname hk, Option.some.injEq] at hd
    rw [satellite_data_getElem? env altitude inclination num_planes
      sats_per_plane 0 cname hk2, Option.some.injEq] at hd2
    rw [← hd, ← hd2]
    show mean_anomaly_of num_planes sats_per_plane 0 (k / sats_per_plane)
        (k % sats_per_plane) =
      mean_anomaly_of num_planes sats_per_plane 0 (k2 / sats_per_plane)
        (k2 % sats_per_plane)
    unfold mean_anomaly_of
    rw [hwpo (k / sats_per_plane), hwpo (k2 / sats_per_plane), hmod]

theorem C5_mean_anomaly_walker_witness :
    (∀ k, k < 2 * 3 →
      ∃ d, (constellation_data env₀ 550 53 2 3 0 "W").satellite_data[k]? =
          some d ∧
        d.mean_anomaly = pymod
          (((k % 3 : Nat) : ℚ) * (360 / (3 : ℚ)) +
            pymod (((k / 3 : Nat) : ℚ) *
              (((0 : ℚ) * 360) / ((2 * 3 : Nat) : ℚ))) 360) 360) ∧
    ((0 : Nat) = 0 →
      (∀ plane, walker_phase_offset_of 2 3 0 plane = 0) ∧
      (∀ k k2, k < 2 * 3 → k2 < 2 * 3 → k % 3 = k2 % 3 →
        ∀ d d2, (constellation_data env₀ 550 53 2 3 0 "W").satellite_data[k]? =
            some d →
          (constellation_data env₀ 550 53 2 3 0 "W").satellite_data[k2]? =
            some d2 →
          d.mean_anomaly = d2.mean_anomaly)) := by
  have h := C5_mean_anomaly_walker env₀ 550 53 2 3 0 "W" (by decide) (by decide)
  exact_mod_cast h

theorem raan_of_nonneg (num_planes plane : Nat) :
    0 ≤ raan_of num_planes plane :=
  pymod_nonneg (by norm_num)

theorem raan_of_lt360 (num_planes plane : Nat) :
    raan_of num_planes plane < 360 :=
  pymod_lt (by norm_num)

theorem mean_anomaly_of_nonneg (num_planes sats_per_plane walker_F plane sat : Nat) :
    0 ≤ mean_anomaly_of num_planes sats_per_plane walker_F plane sat :=
  pymod_nonneg (by norm_num)

theorem mean_anomaly_of_lt360 (num_planes sats_per_plane walker_F plane sat : Nat) :
    mean_anomaly_of num_planes sats_per_plane walker_F plane sat < 360 :=
  pymod_lt (by norm_num)

theorem sat_number_of_eq (env : Env) (sats_per_plane k : Nat) :
    sat_number_of env sats_per_plane (k / sats_per_plane)
      (k % sats_per_plane) = env.base_norad_id + k := by
  unfold sat_number_of
  rw [Nat.mul_comm (k / sats_per_plane) sats_per_plane, Nat.div_add_mod]

/-- Claim C9: every satellite's line1 carries, in columns 19-32 (0-based 18
to 31), the identical epoch string of the run — the epoch is sampled once per
run, before any satellite is produced, and shared by all satellites. -/
theorem C9_shared_epoch (env : Env) (inclination : ℚ)
    (num_planes sats_per_plane walker_F : Nat) (cname : String)
    (hwf : env.wf)
    (hids : env.base_norad_id + num_planes * sats_per_plane ≤ 100000) :
    ∀ r ∈ records env inclination num_planes sats_per_plane walker_F cname,
      (r.1.2.1.toList.drop 18).take 14 = epoch_str env := by
  obtain ⟨hy, hd1, hd2, hb1, hb2, hli⟩ := hwf
  intro r hr
  rw [records, planeSlotPairs_eq] at hr
  simp only [List.map_map, List.mem_map, List.mem_range, Function.comp] at hr
  obtain ⟨k, hk, rfl⟩ := hr
  show ((addChecksum (fix68 (line1_body env
    (sat_number_of env sats_per_plane (k / sats_per_plane)
      (k % sats_per_plane))
    (env.launch_info (k / sats_per_plane * sats_per_plane +
      k % sats_per_plane))))).drop 18).take 14 = epoch_str env
  set id := sat_number_of env sats_per_plane (k / sats_per_plane)
    (k % sats_per_plane) with hiddef
  set li := env.launch_info (k / sats_per_plane * sats_per_plane +
    k % sats_per_plane) with hlidef
  have hsplit : line1_body env id li =
      ("1 ".toList ++ fmtNat0 5 id ++ "U ".toList ++ fmtNat0 2 li.year ++
        fmtNat0 3 li.number ++ padRight 3 li.piece ++ [' ']) ++
      (epoch_str env ++
        ([' '] ++ " .00000000  00000+0  00000-0 0  9999".toList)) := by
    simp [line1_body, List.append_assoc]
  have hpow5 : (10 : ℕ) ^ 5 = 100000 := by norm_num
  have hid5 : (fmtNat0 5 id).length = 5 := by
    refine fmtNat0_length (by norm_num) ?_
    rw [hiddef, sat_number_of_eq, hpow5]
    omega
  have hy2 : (fmtNat0 2 li.year).length = 2 := by
    refine fmtNat0_length (by norm_num) ?_
    have := (hli (k / sats_per_plane * sats_per_plane + k % sats_per_plane)).1
    rw [hlidef]
    norm_num
    omega
  have hn3 : (fmtNat0 3 li.number).length = 3 := by
    refine fmtNat0_length (by norm_num) ?_
    have := (hli (k / sats_per_plane * sats_per_plane +
      k % sats_per_plane)).2.2.1
    rw [hlidef]
    norm_num
    omega
  have hp3 : (padRight 3 li.piece).length = 3 := by
    refine padRight_length ?_
    have := (hli (k / sats_per_plane * sats_per_plane +
      k % sats_per_plane)).2.2.2.2
    rw [hlidef]
    omega
  have hl1 : ("1 ".toList).length = 2 := rfl
  have hl2 : ("U ".toList).length = 2 := rfl
  have hA : ("1 ".toList ++ fmtNat0 5 id ++ "U ".toList ++
      fmtNat0 2 li.year ++ fmtNat0 3 li.number ++ padRight 3 li.piece ++
      [' ']).length = 18 := by
    simp only [List.length_append, hl1, hl2, hid5, hy2, hn3, hp3,
      List.length_cons, List.length_nil]
  have hB : (epoch_str env).length = 14 := by
    rw [epoch_str, List.length_append,
      fmtNat0_length (by norm_num) (by norm_num; omega),
      fmtF0_length 3 (by norm_num) (by norm_num) (by norm_num)
        (by linarith) (by norm_num; linarith)]
  rw [hsplit]
  exact slice_line hA hB (by norm_num)

theorem C9_shared_epoch_witness :
    (records env₀ 53 2 2 1 "T").Forall (fun r =>
      (r.1.2.1.toList.drop 18).take 14 = epoch_str env₀) :=
  List.forall_iff_forall_mem.2
    (C9_shared_epoch env₀ 53 2 2 1 "T" env₀_wf (by norm_num [env₀]))

/-- Claim C6: the mean motion satisfies
n = sqrt(398600.4418 / (6378.137 + altitude)³) × 86400 / (2π) rev/day —
for altitude 550 km any such value lies strictly between 15.0 and 15.1 —
and the one per-run value is both reported in the summary and encoded in
columns 53-63 (0-based 52 to 62) of every line2. -/
theorem C6_mean_motion_kepler :
    (∀ n : ℝ, mean_motion_rel 550 n → 15 < n ∧ n < 15.1) ∧
    (∀ (env : Env) (altitude inclination : ℚ)
      (num_planes sats_per_plane walker_F : Nat) (cname : String),
      env.base_norad_id + num_planes * sats_per_plane ≤ 100000 →
      0 ≤ inclination → inclination < 999 →
      0 ≤ env.mean_motion → env.mean_motion < 99 →
      (constellation_data env altitude inclination num_planes sats_per_plane
        walker_F cname).mean_motion = env.mean_motion ∧
      ∀ r ∈ records env inclination num_planes sats_per_plane walker_F cname,
        (r.1.2.2.toList.drop 52).take 11 = fmtF 11 8 env.mean_motion) := by
  constructor
  · intro n hrel
    rw [mean_motion_rel] at hrel
    obtain ⟨hn0, heq⟩ := hrel
    have hcast : ((Re : ℚ) : ℝ) + ((550 : ℚ) : ℝ) = 6928.137 := by
      norm_num [Re]
    have hmu : ((mu : ℚ) : ℝ) = 398600.4418 := by norm_num [mu]
    rw [hcast, hmu] at heq
    have ha3 : (0 : ℝ) < 6928.137 ^ 3 := by norm_num
    constructor
    · by_contra hc
      push_neg at hc
      have hsq : n ^ 2 ≤ 225 := by nlinarith
      have hpiu : (2 * Real.pi) ^ 2 < 39.478438 := by
        nlinarith [Real.pi_lt_3141593, Real.pi_gt_3141592]
      have h1 : n ^ 2 * 6928.137 ^ 3 ≤ 225 * 6928.137 ^ 3 := by nlinarith
      have hle : n ^ 2 * 6928.137 ^ 3 * (2 * Real.pi) ^ 2 ≤
          (225 * 6928.137 ^ 3) * 39.478438 :=
        mul_le_mul h1 (le_of_lt hpiu) (sq_nonneg _) (by positivity)
      have hnum : ((225 : ℝ) * 6928.137 ^ 3) * 39.478438 <
          398600.4418 * 86400 ^ 2 := by norm_num
      linarith
    · by_contra hc
      push_neg at hc
      have hsq : (228.01 : ℝ) ≤ n ^ 2 := by nlinarith
      have hpil : (39.478401 : ℝ) < (2 * Real.pi) ^ 2 := by
        nlinarith [Real.pi_lt_3141593, Real.pi_gt_3141592]
      have h1 : (228.01 : ℝ) * 6928.137 ^ 3 ≤ n ^ 2 * 6928.137 ^ 3 := by
        nlinarith
      have hge : ((228.01 : ℝ) * 6928.137 ^ 3) * 39.478401 ≤
          n ^ 2 * 6928.137 ^ 3 * (2 * Real.pi) ^ 2 :=
        mul_le_mul h1 (le_of_lt hpil) (by norm_num) (by positivity)
      have hnum : (398600.4418 : ℝ) * 86400 ^ 2 <
          ((228.01 : ℝ) * 6928.137 ^ 3) * 39.478401 := by norm_num
      linarith
  · intro env altitude inclination num_planes sats_per_plane walker_F cname
      hids hq1 hq2 hn1 hn2
    refine ⟨rfl, ?_⟩
    intro r hr
    rw [records, planeSlotPairs_eq] at hr
    simp only [List.map_map, List.mem_map, List.mem_range, Function.comp] at hr
    obtain ⟨k, hk, rfl⟩ := hr
    show ((addChecksum (fix68 (line2_body inclination
      (raan_of num_planes (k / sats_per_plane))
      (mean_anomaly_of num_planes sats_per_plane walker_F
        (k / sats_per_plane) (k % sats_per_plane))
      env.mean_motion
      (sat_number_of env sats_per_plane (k / sats_per_plane)
        (k % sats_per_plane))))).drop 52).take 11 = fmtF 11 8 env.mean_motion
    set idn := sat_number_of env sats_per_plane (k / sats_per_plane)
      (k % sats_per_plane) with hiddef
    set raanv := raan_of num_planes (k / sats_per_plane)
    set Mv := mean_anomaly_of num_planes sats_per_plane walker_F
      (k / sats_per_plane) (k % sats_per_plane)
    have hsplit : line2_body inclination raanv Mv env.mean_motion idn =
        ("2 ".toList ++ fmtNat0 5 idn ++ [' '] ++ fmtF 8 4 inclination ++
          [' '] ++ fmtF 8 4 raanv ++ [' '] ++
          fmtNat0 7 (pyInt (ecc * 10 ^ 7)).toNat ++ [' '] ++
          fmtF 8 4 omega0 ++ [' '] ++ fmtF 8 4 Mv ++ [' ']) ++
        (fmtF 11 8 env.mean_motion ++ "    1".toList) := by
      simp [line2_body, List.append_assoc]
    have hpow5 : (10 : ℕ) ^ 5 = 100000 := by norm_num
    have hid5 : (fmtNat0 5 idn).length = 5 := by
      refine fmtNat0_length (by norm_num) ?_
      rw [hiddef, sat_number_of_eq, hpow5]
      omega
    have hincl : (fmtF 8 4 inclination).length = 8 :=
      fmtF_length 3 (by norm_num) (by norm_num) (by norm_num) hq1
        (by norm_num; linarith)
    have hraan : (fmtF 8 4 raanv).length = 8 :=
      fmtF_length 3 (by norm_num) (by norm_num) (by norm_num)
        (raan_of_nonneg num_planes (k / sats_per_plane))
        (by norm_num
            linarith [raan_of_lt360 num_planes (k / sats_per_plane)])
    have hecc0 : (pyInt (ecc * 10 ^ 7)).toNat = 0 := by
      norm_num [ecc, pyInt]
    have hecc : (fmtNat0 7 (pyInt (ecc * 10 ^ 7)).toNat).length = 7 := by
      rw [hecc0]
      exact fmtNat0_length (by norm_num) (by norm_num)
    have homg : (fmtF 8 4 omega0).length = 8 :=
      fmtF_length 3 (by norm_num) (by norm_num) (by norm_num)
        (by norm_num [omega0]) (by norm_num [omega0])
    have hM : (fmtF 8 4 Mv).length = 8 :=
      fmtF_length 3 (by norm_num) (by norm_num) (by norm_num)
        (mean_anomaly_of_nonneg num_planes sats_per_plane walker_F
          (k / sats_per_plane) (k % sats_per_plane))
        (by norm_num
            linarith [mean_anomaly_of_lt360 num_planes sats_per_plane
              walker_F (k / sats_per_plane) (k % sats_per_plane)])
    have hl2 : ("2 ".toList).length = 2 := rfl
    have hA : ("2 ".toList ++ fmtNat0 5 idn ++ [' '] ++
        fmtF 8 4 inclination ++ [' '] ++ fmtF 8 4 raanv ++ [' '] ++
        fmtNat0 7 (pyInt (ecc * 10 ^ 7)).toNat ++ [' '] ++
        fmtF 8 4 omega0 ++ [' '] ++ fmtF 8 4 Mv ++ [' ']).length = 52 := by
      simp only [List.length_append, hl2, hid5, hincl, hraan, hecc, homg, hM,
        List.length_cons, List.length_nil]
    have hB : (fmtF 11 8 env.mean_motion).length = 11 :=
      fmtF_length 2 (by norm_num) (by norm_num) (by norm_num) hn1
        (by norm_num; linarith)
    rw [hsplit]
    exact slice_line hA hB (by norm_num)

theorem C6_mean_motion_kepler_witness :
    ((15 : ℝ) < Real.sqrt (((mu : ℚ) : ℝ) / (6928.137 : ℝ) ^ 3) *
        (86400 / (2 * Real.pi)) ∧
      Real.sqrt (((mu : ℚ) : ℝ) / (6928.137 : ℝ) ^ 3) *
        (86400 / (2 * Real.pi)) < 15.1) ∧
    ((constellation_data env₀ 550 53 2 2 1 "W").mean_motion =
        env₀.mean_motion ∧
      ∀ r ∈ records env₀ 53 2 2 1 "W",
        (r.1.2.2.toList.drop 52).take 11 = fmtF 11 8 env₀.mean_motion) := by
  constructor
  · refine C6_mean_motion_kepler.1 _ ⟨?_, ?_⟩
    · positivity
    · show (Real.sqrt (((mu : ℚ) : ℝ) / (6928.137 : ℝ) ^ 3) *
          (86400 / (2 * Real.pi))) ^ 2 *
          ((Re : ℝ) + (((550 : ℚ) : ℝ))) ^ 3 * (2 * Real.pi) ^ 2 =
          ((mu : ℚ) : ℝ) * 86400 ^ 2
      have hcast : ((Re : ℚ) : ℝ) + ((550 : ℚ) : ℝ) = 6928.137 := by
        norm_num [Re]
      have hmu0 : (0 : ℝ) ≤ ((mu : ℚ) : ℝ) := by norm_num [mu]
      have hx : (0 : ℝ) ≤ ((mu : ℚ) : ℝ) / (6928.137 : ℝ) ^ 3 := by
        positivity
      rw [hcast, mul_pow, Real.sq_sqrt hx]
      have hpi : (2 * Real.pi) ≠ 0 :=
        mul_ne_zero two_ne_zero Real.pi_ne_zero
      field_simp
      ring
  · exact C6_mean_motion_kepler.2 env₀ 550 53 2 2 1 "W" (by norm_num [env₀])
      (by norm_num) (by norm_num) (by norm_num [env₀]) (by norm_num [env₀])

/-- Claim C10 (implicit): the name line and line2 of every satellite are
independent of the per-satellite launch-metadata draws: two runs with equal
inputs, epoch, NORAD base and mean motion but arbitrary launch draws produce
identical name lines and line2 lines; only line1 embeds the launch fields. -/
theorem C10_launch_independence (inclination : ℚ)
    (num_planes sats_per_plane walker_F : Nat) (cname : String)
    (env1 env2 : Env)
    (hy : env1.epoch_year = env2.epoch_year)
    (hd : env1.epoch_day = env2.epoch_day)
    (hb : env1.base_norad_id = env2.base_norad_id)
    (hn : env1.mean_motion = env2.mean_motion) :
    (records env1 inclination num_planes sats_per_plane walker_F cname).map
        (fun r => (r.1.1, r.1.2.2)) =
      (records env2 inclination num_planes sats_per_plane walker_F cname).map
        (fun r => (r.1.1, r.1.2.2)) := by
  unfold records
  rw [List.map_map, List.map_map]
  refine List.map_congr_left (fun ps hps => ?_)
  simp only [Function.comp, satTriple, sat_number_of, hb, hn]

theorem C10_launch_independence_witness :
    env₀.launch_info 0 ≠ env₁.launch_info 0 ∧
    (records env₀ 53 2 2 1 "W").map (fun r => (r.1.1, r.1.2.2)) =
      (records env₁ 53 2 2 1 "W").map (fun r => (r.1.1, r.1.2.2)) :=
  ⟨by decide, C10_launch_independence 53 2 2 1 "W" env₀ env₁ rfl rfl rfl rfl⟩

/-- Claim C7 counterexample: a mean motion of 100 rev/day — at or beyond the
100 rev/day overflow threshold the claim names — still generates successfully:
the encoder never fails with a FormatOverflowError (no such error exists in
the code; the body is blindly truncated at 68 columns instead). -/
theorem C7_counterexample :
    (100 : ℚ) ≤ env100.mean_motion ∧
    ∃ out, generate_constellation_tle env100 (-4418) 53 1 1 0 "X" =
      .ok out := by
  constructor
  · norm_num [env100]
  · refine ⟨(tle_lines env100 53 1 1 0 "X",
      constellation_data env100 (-4418) 53 1 1 0 "X"), ?_⟩
    unfold generate_constellation_tle
    rw [if_neg (by push_neg; exact ⟨by norm_num [Re], by omega, by omega⟩)]

/-- Claim C7 amended: the encoder never raises an overflow error — for any
field values, however oversized, the run succeeds whenever it runs at all
(num_planes, sats_per_plane ≥ 1 and a nonzero semi-major axis,
altitude ≠ −6378.137), each line1/line2 blindly truncated or padded to
exactly 69 characters (68 body columns plus the checksum digit). -/
theorem C7_blind_truncation (env : Env) (altitude inclination : ℚ)
    (num_planes sats_per_plane walker_F : Nat) (cname : String)
    (ha : Re + altitude ≠ 0)
    (hp : 1 ≤ num_planes) (hs : 1 ≤ sats_per_plane) :
    (∃ lines summary,
      generate_constellation_tle env altitude inclination num_planes
        sats_per_plane walker_F cname = .ok (lines, summary)) ∧
    ∀ r ∈ records env inclination num_planes sats_per_plane walker_F cname,
      r.1.2.1.toList.length = 69 ∧ r.1.2.2.toList.length = 69 := by
  constructor
  · refine ⟨tle_lines env inclination num_planes sats_per_plane walker_F
      cname, constellation_data env altitude inclination num_planes
      sats_per_plane walker_F cname, ?_⟩
    unfold generate_constellation_tle
    rw [if_neg (by push_neg; exact ⟨ha, by omega, by omega⟩)]
  · intro r hr
    simp only [records, List.mem_map] at hr
    obtain ⟨ps, hps, rfl⟩ := hr
    exact ⟨line69 _, line69 _⟩

theorem C7_blind_truncation_witness :
    (∃ lines summary,
      generate_constellation_tle env100 (-4418) 53 2 1 0 "X" =
        .ok (lines, summary)) ∧
    ∀ r ∈ records env100 53 2 1 0 "X",
      r.1.2.1.toList.length = 69 ∧ r.1.2.2.toList.length = 69 :=
  C7_blind_truncation env100 (-4418) 53 2 1 0 "X" (by norm_num [Re])
    (by decide) (by decide)

/-- Claim C8 counterexample: altitude −7000 km, strictly below −6378.137 km
(negative semi-major axis), yet the run succeeds and returns records — no
InvalidParameterError is raised (the code computes a NaN mean motion from
`np.sqrt` of a negative quotient and carries on). -/
theorem C8_counterexample :
    (-7000 : ℚ) ≤ -Re ∧
    ∃ out, generate_constellation_tle env₀ (-7000) 53 1 1 0 "X" =
      .ok out := by
  constructor
  · norm_num [Re]
  · refine ⟨(tle_lines env₀ 53 1 1 0 "X",
      constellation_data env₀ (-7000) 53 1 1 0 "X"), ?_⟩
    unfold generate_constellation_tle
    rw [if_neg (by push_neg; exact ⟨by norm_num [Re], by omega, by omega⟩)]

/-- Claim C8 amended: there is no InvalidParameterError. The run aborts —
with an uncaught ZeroDivisionError, and before any output is produced —
exactly when the semi-major axis Re + altitude is zero (altitude =
−6378.137, the float division of line 59), or num_planes = 0, or
sats_per_plane = 0 (the spacing divisions of lines 73-74). Every other
input, including every altitude strictly below −6378.137 where the mean
motion becomes NaN, returns the complete 3·planes·sats lines
(all-or-nothing holds, but under the wrong error kind and with no
range check on the altitude). -/
theorem C8_zero_division_all_or_nothing (env : Env)
    (altitude inclination : ℚ) (num_planes sats_per_plane walker_F : Nat)
    (cname : String) :
    (Re + altitude = 0 ∨ num_planes = 0 ∨ sats_per_plane = 0 →
      generate_constellation_tle env altitude inclination num_planes
        sats_per_plane walker_F cname = .error .zeroDivision) ∧
    (Re + altitude ≠ 0 → 1 ≤ num_planes → 1 ≤ sats_per_plane →
      ∃ lines summary,
        generate_constellation_tle env altitude inclination num_planes
          sats_per_plane walker_F cname = .ok (lines, summary) ∧
        lines.length = 3 * (num_planes * sats_per_plane)) := by
  constructor
  · intro h
    unfold generate_constellation_tle
    rw [if_pos h]
  · intro ha hp hs
    refine ⟨tle_lines env inclination num_planes sats_per_plane walker_F
      cname, constellation_data env altitude inclination num_planes
      sats_per_plane walker_F cname, ?_,
      tle_lines_length env inclination num_planes sats_per_plane walker_F
        cname⟩
    unfold generate_constellation_tle
    rw [if_neg (by push_neg; exact ⟨ha, by omega, by omega⟩)]

theorem C8_zero_division_all_or_nothing_witness :
    (generate_constellation_tle env₀ (-6378.137) 53 2 1 0 "X" =
      .error .zeroDivision) ∧
    (generate_constellation_tle env₀ (-7000) 53 0 1 0 "X" =
      .error .zeroDivision) ∧
    ∃ lines summary,
      generate_constellation_tle env₀ (-7000) 53 2 1 0 "X" =
        .ok (lines, summary) ∧
      lines.length = 3 * (2 * 1) :=
  ⟨(C8_zero_division_all_or_nothing env₀ (-6378.137) 53 2 1 0 "X").1
     (Or.inl (by norm_num [Re])),
   (C8_zero_division_all_or_nothing env₀ (-7000) 53 0 1 0 "X").1
     (Or.inr (Or.inl rfl)),
   (C8_zero_division_all_or_nothing env₀ (-7000) 53 2 1 0 "X").2
     (by norm_num [Re]) (by decide) (by decide)⟩

end TUtils
